import Mathlib

/-!
Verification of the temp-email chat-bot plugin (src/main.py).

The repository is one Python file implementing four chat commands around a
third-party temporary-mailbox HTTP API:
  - `获取邮箱`  (generate a mailbox)       — `generate_temp_email`
  - `邮箱列表`  (list messages)            — `get_email_messages`
  - `查看正文`  (view message detail)      — `get_message_detail`
  - `邮箱帮助`  (help)                     — `show_help`
plus per-user persisted state (`_load_user_data` / `_save_user_data`) and two
pure normalizers (`_clean_email_content`, `_timestamp_to_local_time`).

Shallow embedding conventions used below:
  - decoded JSON values are the inductive `JsonVal`; Python `None` and JSON
    `null` are both `JsonVal.null` (Python `dict.get` returns `None` on a
    missing key, which is what the source relies on);
  - Python truthiness is `pyTruthy`;
  - each HTTP exchange is abstracted as an `ApiResponse`: a non-200 status,
    a 200 body that fails `json.loads`, or a 200 body decoded to a `JsonVal`;
  - a handler invocation is a pure function of (configured flag, invoking
    user id, parsed command words, upstream response, current state) to a
    `HandlerOut`: the list of emitted replies, the state after the call, and
    whether the network request was reached;
  - replies are an inductive `Reply`, one constructor per `yield` site of the
    source, carrying the data interpolated into the reply text;
  - Python strings are `String` / `List Char`; `time.time()` values and JSON
    numbers are exact rationals (`ℚ`);
  - code paths on which the Python source raises an uncaught exception inside
    a handler's `try` block are mapped to the handler's generic
    `except Exception` reply, exactly as the interpreter would.
-/

/-- A decoded JSON value (the result of a successful `json.loads`), also used
for the Python values the plugin stores in its per-user dictionaries.
Objects are association lists in document order. -/
inductive JsonVal where
  | null
  | bool (b : Bool)
  | num (q : ℚ)
  | str (s : String)
  | arr (elems : List JsonVal)
  | obj (fields : List (String × JsonVal))

/-- Python truthiness (`bool(x)`) for the values above: `None`, `False`, `0`,
`""`, `[]`, `{}` are falsy, everything else is truthy. -/
def pyTruthy : JsonVal → Bool
  | .null => false
  | .bool b => b
  | .num q => !(q == 0)
  | .str s => !(s == "")
  | .arr l => !l.isEmpty
  | .obj fs => !fs.isEmpty

/-- `isinstance(x, dict)` -/
def isObj : JsonVal → Bool
  | .obj _ => true
  | _ => false

/-- `isinstance(x, str)` -/
def isStr : JsonVal → Bool
  | .str _ => true
  | _ => false

/-- First binding of a key in a JSON object's field list. -/
def lookupF : List (String × JsonVal) → String → Option JsonVal
  | [], _ => none
  | (k', v) :: t, k => if k' = k then some v else lookupF t k

/-- Python `d.get(k)` (default `None`); the embedding only applies it where
the source has already checked `isinstance(d, dict)`. -/
def jget (v : JsonVal) (k : String) : JsonVal :=
  match v with
  | .obj fs => (lookupF fs k).getD .null
  | _ => .null

/-- Python `d.get(k, default)`; same guard discipline as `jget`. -/
def jgetD (v : JsonVal) (k : String) (d : JsonVal) : JsonVal :=
  match v with
  | .obj fs => (lookupF fs k).getD d
  | _ => d

/-- Python `x or y`: `x` if truthy, else `y`. -/
def pyOr (a b : JsonVal) : JsonVal :=
  if pyTruthy a then a else b

/-- First value stored under a key in a per-user mapping
(`d[k]` read access on the plugin's state dictionaries). -/
def lookupKey {α : Type} : List (String × α) → String → Option α
  | [], _ => none
  | (k', v) :: t, k => if k' = k then some v else lookupKey t k

/-- `d[k] = v` on a per-user mapping: overwrite the existing binding, else
append a new one. -/
def setKey {α : Type} : List (String × α) → String → α → List (String × α)
  | [], k, v => [(k, v)]
  | (k', v') :: t, k, v => if k' = k then (k, v) :: t else (k', v') :: setKey t k v

theorem lookupKey_setKey {α : Type} (l : List (String × α)) (k : String) (v : α) :
    lookupKey (setKey l k v) k = some v := by
  induction l with
  | nil => simp [setKey, lookupKey]
  | cons p t ih =>
    obtain ⟨k', v'⟩ := p
    by_cases h : k' = k <;> simp [setKey, lookupKey, h, ih]

/-! ## Response normalizer: `_clean_email_content` (src/main.py lines 41-69) -/

/-- The whitespace class used by `re.sub(r"\s+", ...)`, `str.strip` and
`str.isspace` (ASCII part; the plugin's inputs are mail text). -/
def isSpaceChar (c : Char) : Bool :=
  c = ' ' || c = '\t' || c = '\n' || c = '\r' || c = '\x0b' || c = '\x0c'

/-- The literal boundary marker truncated at by `_clean_email_content`. -/
def boundaryMarker : List Char := "--- mail_boundary ---".toList

/-- `str.find(pat)` (index of the first occurrence), as an `Option`. -/
def findSub (pat : List Char) : List Char → Nat → Option Nat
  | [], i => if pat.isPrefixOf ([] : List Char) then some i else none
  | c :: t, i => if pat.isPrefixOf (c :: t) then some i else findSub pat t (i + 1)

/-- `re.sub(r"<[^>]+>", "", s)`: drop every maximal segment consisting of
`<`, one or more characters none of which is `>`, then `>`.  The scanner
state `some buf` holds the (reversed) characters read since an unmatched
`<`; reaching end of input inside a candidate tag emits it literally, and
`<>` (empty body) is not a match. -/
def stripHtmlAux : Option (List Char) → List Char → List Char
  | none, [] => []
  | none, c :: rest =>
    if c = '<' then stripHtmlAux (some []) rest else c :: stripHtmlAux none rest
  | some buf, [] => '<' :: buf.reverse
  | some buf, c :: rest =>
    if c = '>' then
      if buf.isEmpty then '<' :: '>' :: stripHtmlAux none rest
      else stripHtmlAux none rest
    else stripHtmlAux (some (c :: buf)) rest

def stripHtml (l : List Char) : List Char := stripHtmlAux none l

/-- Python `s.replace(pat, repl)` on character lists: replace every
non-overlapping occurrence left to right, never rescanning the replacement.
The `Nat` argument counts characters of a just-matched pattern that remain
to be skipped, keeping the recursion structural on the list. -/
def replAux (pat repl : List Char) : Nat → List Char → List Char
  | _, [] => []
  | Nat.succ n, _ :: rest => replAux pat repl n rest
  | 0, c :: rest =>
    if !pat.isEmpty && pat.isPrefixOf (c :: rest) then
      repl ++ replAux pat repl (pat.length - 1) rest
    else c :: replAux pat repl 0 rest

def pyReplace (pat repl l : List Char) : List Char := replAux pat repl 0 l

/-- The fixed entity table of `_clean_email_content`, applied in source
order (`&nbsp;`, `&amp;`, `&lt;`, `&gt;`, `&quot;`). -/
def decodeEntities (l : List Char) : List Char :=
  pyReplace "&quot;".toList "\"".toList
    (pyReplace "&gt;".toList ">".toList
      (pyReplace "&lt;".toList "<".toList
        (pyReplace "&amp;".toList "&".toList
          (pyReplace "&nbsp;".toList " ".toList l))))

/-- `re.sub(r"\s+", " ", s)`: each maximal whitespace run becomes one space.
The flag records being inside a run already represented by an emitted space. -/
def collapseWsAux : Bool → List Char → List Char
  | _, [] => []
  | inRun, c :: rest =>
    if isSpaceChar c then
      if inRun then collapseWsAux true rest else ' ' :: collapseWsAux true rest
    else c :: collapseWsAux false rest

def collapseWs (l : List Char) : List Char := collapseWsAux false l

/-- Python `s.strip()`. -/
def pyStrip (l : List Char) : List Char :=
  ((l.dropWhile isSpaceChar).reverse.dropWhile isSpaceChar).reverse

/-- Python `s.strip()` on `String`. -/
def pyStripS (s : String) : String := String.mk (pyStrip s.toList)

/-- Python `s.isspace()`: non-empty and all whitespace. -/
def pyIsSpaceStr (l : List Char) : Bool := !l.isEmpty && l.all isSpaceChar

def noContentSentinel : List Char := "无内容".toList
def emptyBodySentinel : List Char := "邮件内容为空".toList

/-- The processing `_clean_email_content` applies after boundary truncation:
HTML-tag stripping, entity decoding, whitespace collapsing, strip. -/
def cleanPipeline (l : List Char) : List Char :=
  pyStrip (collapseWs (decodeEntities (stripHtml l)))

/-- The tail of `_clean_email_content`: run the pipeline and substitute the
empty-body sentinel when the result is empty or all-whitespace
(`if not content or content.isspace()`). -/
def finishClean (l : List Char) : List Char :=
  let r := cleanPipeline l
  if r.isEmpty || pyIsSpaceStr r then emptyBodySentinel else r

/-- `_clean_email_content` (lines 41-69): empty input gives the no-content
sentinel; otherwise everything from the first `--- mail_boundary ---` onward
is cut before the cleaning pipeline runs. -/
def clean_email_content (content : List Char) : List Char :=
  if content = [] then noContentSentinel
  else
    match findSub boundaryMarker content 0 with
    | some i => finishClean (content.take i)
    | none => finishClean content

example : clean_email_content "a<b>c".toList = "ac".toList := by decide
example : clean_email_content "x --- mail_boundary --- y".toList = "x".toList := by decide
example : clean_email_content "".toList = noContentSentinel := by decide
example : clean_email_content "&amp;lt;".toList = "<".toList := by decide
example : clean_email_content "  a   b ".toList = "a b".toList := by decide

/-! ## Timestamp formatting: `_timestamp_to_local_time` (lines 109-129)

`time.localtime` / `time.strftime` depend on the host time zone; the
embedding abstracts the composition `strftime("%Y-%m-%d %H:%M:%S", localtime ·)`
as an arbitrary function `fmt : ℚ → String` and keeps the plugin's own logic:
the seconds-vs-milliseconds heuristic dividing values above `1e12` by `1000`.
Python floats are modelled as exact rationals. -/

def timestamp_to_local_time (fmt : ℚ → String) (ts : ℚ) : String :=
  fmt (if ts > 10 ^ 12 then ts / 1000 else ts)

/-- A stand-in for `strftime ∘ localtime` that, like the real one, formats the
instants `2e9 s` (year 2033) and `2e12 s` (year 65387) differently. -/
def probeFormatter (q : ℚ) : String :=
  if q < 10 ^ 10 then "2033-05-18 11:33:20" else "+65387-01-01 00:00:00"

/-! ## Per-user state, replies, and the three data-command handlers -/

/-- The record `generate_temp_email` stores under
`self.user_email_ids[user_origin]` (lines 176-180).  `email_id` and
`email_address` hold whatever JSON values were extracted; `created_time`
is `time.time()`. -/
structure MailboxSession where
  email_id : JsonVal
  email_address : JsonVal
  created_time : ℚ

/-- The plugin's in-memory per-user state: `self.user_email_ids` and
`self.user_message_ids`, dictionaries keyed by `event.unified_msg_origin`. -/
structure PluginState where
  user_email_ids : List (String × MailboxSession)
  user_message_ids : List (String × List JsonVal)

/-- One upstream HTTP exchange, as seen by a handler:
non-200 status, 200 with malformed JSON, or 200 with decoded JSON. -/
inductive ApiResponse where
  | httpError (code : Nat)
  | badJson
  | ok (data : JsonVal)

/-- One constructor per `yield event.plain_result(...)` site of the three
data-command handlers, carrying the data interpolated into the text. -/
inductive Reply where
  | notConfigured
  | genNetworkFailed
  | genBadJson
  | genGenericError
  | genFailed
  | genSuccess (email : JsonVal) (email_id : JsonVal)
  | listNoMailbox
  | listNetworkFailed (code : Nat)
  | listBadJson
  | listGenericError
  | listNoMessages (email_id : JsonVal)
  | listSuccess (email_id : JsonVal) (ids : List JsonVal)
  | detailNoId
  | detailNetworkFailed (code : Nat)
  | detailBadJson
  | detailGenericError
  | detailNotFound (message_id : JsonVal)
  | detailFormatError
  | detailSuccess (message_id : JsonVal) (body : List Char)

/-- Result of one handler invocation: the replies yielded, the state after
the call, and whether the upstream HTTP request was reached. -/
structure HandlerOut where
  replies : List Reply
  state : PluginState
  usedNetwork : Bool

/-- Address extraction of `generate_temp_email` (lines 166-170):
`result.get("email") or result.get("mail") or result.get("address")` when
`result` is a dict, `result` itself when it is a string, else `None`. -/
def extract_email (result : JsonVal) : JsonVal :=
  match result with
  | .obj _ => pyOr (pyOr (jget result "email") (jget result "mail")) (jget result "address")
  | .str s => .str s
  | _ => .null

/-- Mailbox-id extraction of `generate_temp_email` (line 173):
`result.get("id", "") if isinstance(result, dict) else ""`. -/
def extract_email_id (result : JsonVal) : JsonVal :=
  match result with
  | .obj _ => jgetD result "id" (.str "")
  | _ => .str ""

/-- `generate_temp_email` (lines 131-201).  A 200 response whose JSON body is
not an object makes `data.get` raise `AttributeError`, which the handler's
`except Exception` turns into the generic error reply. -/
def generate_temp_email (configured : Bool) (user : String) (resp : ApiResponse)
    (now : ℚ) (st : PluginState) : HandlerOut :=
  if configured then
    match resp with
    | .httpError _ => ⟨[.genNetworkFailed], st, true⟩
    | .badJson => ⟨[.genBadJson], st, true⟩
    | .ok data =>
      match data with
      | .obj _ =>
        let result := jgetD data "result" (.obj [])
        if pyTruthy (extract_email result) then
          let newSession : MailboxSession :=
            ⟨extract_email_id result, extract_email result, now⟩
          let st' :=
            if pyTruthy (extract_email_id result) then
              { st with user_email_ids := setKey st.user_email_ids user newSession }
            else st
          ⟨[.genSuccess (extract_email result) (extract_email_id result)], st', true⟩
        else ⟨[.genFailed], st, true⟩
      | _ => ⟨[.genGenericError], st, true⟩
  else ⟨[.notConfigured], st, false⟩

/-- Message-list extraction of `get_email_messages` (lines 252-256):
`result["messages"]` when `result` is a dict containing that key, `result`
itself when it is a list, else the initial `[]`. -/
def extract_messages (result : JsonVal) : JsonVal :=
  match result with
  | .obj fs => if (lookupF fs "messages").isSome then jget result "messages" else .arr []
  | .arr xs => .arr xs
  | _ => .arr []

/-- The id cache written by `get_email_messages` (line 260):
`[msg.get("id", "") for msg in messages if msg.get("id")]`. -/
def extract_message_ids (msgs : List JsonVal) : List JsonVal :=
  msgs.filterMap fun m =>
    if pyTruthy (jget m "id") then some (jgetD m "id" (.str "")) else none

/-- `get_email_messages` (lines 203-298).  Target-id resolution (explicit
argument, else the stored session, else a user-input error with no network
call) precedes the HTTP request.  A truthy `messages` value that is not a
list, or a list containing a non-dict element, makes the Python code raise
(`len` or `msg.get`), landing in `except Exception` before any state
mutation. -/
def get_email_messages (configured : Bool) (user : String) (parts : List String)
    (resp : ApiResponse) (st : PluginState) : HandlerOut :=
  if configured then
    let argId : Option String :=
      if 1 < parts.length then some (pyStripS (parts.getD 1 "")) else none
    let eidOpt : Option JsonVal :=
      match argId with
      | some s =>
        if s = "" then (lookupKey st.user_email_ids user).map (fun ss => ss.email_id)
        else some (.str s)
      | none => (lookupKey st.user_email_ids user).map (fun ss => ss.email_id)
    match eidOpt with
    | none => ⟨[.listNoMailbox], st, false⟩
    | some eid =>
      match resp with
      | .httpError code => ⟨[.listNetworkFailed code], st, true⟩
      | .badJson => ⟨[.listBadJson], st, true⟩
      | .ok data =>
        match data with
        | .obj _ =>
          let messages := extract_messages (jgetD data "result" (.arr []))
          if pyTruthy messages then
            match messages with
            | .arr msgs =>
              if msgs.all isObj then
                ⟨[.listSuccess eid (extract_message_ids msgs)],
                 { st with user_message_ids :=
                     setKey st.user_message_ids user (extract_message_ids msgs) },
                 true⟩
              else ⟨[.listGenericError], st, true⟩
            | _ => ⟨[.listGenericError], st, true⟩
          else ⟨[.listNoMessages eid], st, true⟩
        | _ => ⟨[.listGenericError], st, true⟩
  else ⟨[.notConfigured], st, false⟩

/-- The `content` handling of `get_message_detail` (lines 356-358): a falsy
content (absent key defaults are handled by the caller) yields the
no-content sentinel inside `_clean_email_content`; a truthy non-string makes
`content.find` raise `AttributeError` (generic error). -/
def cleanContentJ (v : JsonVal) : Except Unit (List Char) :=
  if pyTruthy v then
    match v with
    | .str s => .ok (clean_email_content s.toList)
    | _ => .error ()
  else .ok noContentSentinel

/-- The branch of `get_message_detail` on the decoded `result` value
(lines 346-370): falsy → not-found reply; truthy non-dict → format-error
reply; dict → read `content` and build the success reply. -/
def detailResultBranch (mid : JsonVal) (result : JsonVal) (st : PluginState) : HandlerOut :=
  if pyTruthy result then
    match result with
    | .obj _ =>
      match cleanContentJ (jgetD result "content" (.str "无内容")) with
      | .ok body => ⟨[.detailSuccess mid body], st, true⟩
      | .error _ => ⟨[.detailGenericError], st, true⟩
    | _ => ⟨[.detailFormatError], st, true⟩
  else ⟨[.detailNotFound mid], st, true⟩

/-- `get_message_detail` (lines 300-382).  With two or more command words the
second is the message id (no emptiness re-check, unlike the list handler);
otherwise the head of the user's cached id list; otherwise a user-input
error before any network call.  The handler never mutates state. -/
def get_message_detail (configured : Bool) (user : String) (parts : List String)
    (resp : ApiResponse) (st : PluginState) : HandlerOut :=
  if configured then
    let midOpt : Option JsonVal :=
      if 2 ≤ parts.length then some (.str (pyStripS (parts.getD 1 "")))
      else
        match lookupKey st.user_message_ids user with
        | some (i :: _) => some i
        | _ => none
    match midOpt with
    | none => ⟨[.detailNoId], st, false⟩
    | some mid =>
      match resp with
      | .httpError code => ⟨[.detailNetworkFailed code], st, true⟩
      | .badJson => ⟨[.detailBadJson], st, true⟩
      | .ok data =>
        match data with
        | .obj _ => detailResultBranch mid (jgetD data "result" (.obj [])) st
        | _ => ⟨[.detailGenericError], st, true⟩
  else ⟨[.notConfigured], st, false⟩

/-! ## Persistence: `_load_user_data` / `_save_user_data` (lines 78-107)

Serialization is modelled at document granularity: `json.dump` followed by
`json.load` of a document maps to the identity on `JsonVal` (Python's JSON
round trip is lossless on the str/float/list/dict values involved), so the
persisted file is represented by the `JsonVal` document itself. -/

/-- The possible contents of the persisted file as seen by
`_load_user_data`: absent, unreadable (`IOError`), undecodable
(`json.JSONDecodeError`), or decoded to a JSON value. -/
inductive LoadInput where
  | missing
  | unreadable
  | badJson
  | decoded (v : JsonVal)

/-- `_load_user_data` (lines 78-93).  Missing file and caught read/decode
failures initialize both mappings to `{}`.  A decoded document that is not a
JSON object makes `data.get` raise `AttributeError`, which the
`except (json.JSONDecodeError, IOError)` clause does not catch: the load
raises (modelled as `Except.error`). -/
def load_user_data : LoadInput → Except Unit (JsonVal × JsonVal)
  | .missing => .ok (.obj [], .obj [])
  | .unreadable => .ok (.obj [], .obj [])
  | .badJson => .ok (.obj [], .obj [])
  | .decoded v =>
    match v with
    | .obj fs =>
      .ok ((lookupF fs "user_email_ids").getD (.obj []),
           (lookupF fs "user_message_ids").getD (.obj []))
    | _ => .error ()

/-- The JSON image of one stored session dict (lines 176-180 as serialized by
`json.dump`). -/
def encodeSession (s : MailboxSession) : JsonVal :=
  .obj [("email_id", s.email_id), ("email_address", s.email_address),
        ("created_time", .num s.created_time)]

/-- The JSON image of `self.user_email_ids`. -/
def encodeSessions (l : List (String × MailboxSession)) : JsonVal :=
  .obj (l.map fun p => (p.1, encodeSession p.2))

/-- The JSON image of `self.user_message_ids`. -/
def encodeCaches (l : List (String × List JsonVal)) : JsonVal :=
  .obj (l.map fun p => (p.1, .arr p.2))

/-- `_save_user_data` (lines 95-107): the document written is
`{"user_email_ids": ..., "user_message_ids": ...}`. -/
def save_user_data (st : PluginState) : JsonVal :=
  .obj [("user_email_ids", encodeSessions st.user_email_ids),
        ("user_message_ids", encodeCaches st.user_message_ids)]

/-- Option-valued traversal of a list (used by the round-trip decoders). -/
def traverseOpt {α β : Type} (f : α → Option β) : List α → Option (List β)
  | [] => some []
  | x :: t =>
    match f x, traverseOpt f t with
    | some y, some ys => some (y :: ys)
    | _, _ => none

/-- Reading one serialized session dict back into a `MailboxSession`; a
proof-side inverse of `encodeSession` witnessing that serialization loses
nothing. -/
def decodeSession (j : JsonVal) : Option MailboxSession :=
  match j with
  | .obj fs =>
    match lookupF fs "email_id", lookupF fs "email_address", lookupF fs "created_time" with
    | some i, some a, some (.num t) => some ⟨i, a, t⟩
    | _, _, _ => none
  | _ => none

/-- Proof-side inverse of `encodeSessions`. -/
def decodeSessions (j : JsonVal) : Option (List (String × MailboxSession)) :=
  match j with
  | .obj fs => traverseOpt (fun p => (decodeSession p.2).map fun s => (p.1, s)) fs
  | _ => none

/-- Proof-side inverse of `encodeCaches`. -/
def decodeCaches (j : JsonVal) : Option (List (String × List JsonVal)) :=
  match j with
  | .obj fs =>
    traverseOpt (fun p => match p.2 with | .arr ids => some (p.1, ids) | _ => none) fs
  | _ => none

theorem decodeSessions_encodeSessions (l : List (String × MailboxSession)) :
    decodeSessions (encodeSessions l) = some l := by
  induction l with
  | nil => rfl
  | cons p t ih =>
    obtain ⟨u, s⟩ := p
    simp only [encodeSessions, decodeSessions, List.map_cons, traverseOpt] at ih ⊢
    rw [show (decodeSession (encodeSession s)).map (fun x => (u, x)) = some (u, s) from rfl]
    rw [ih]

theorem decodeCaches_encodeCaches (l : List (String × List JsonVal)) :
    decodeCaches (encodeCaches l) = some l := by
  induction l with
  | nil => rfl
  | cons p t ih =>
    obtain ⟨u, ids⟩ := p
    simp only [encodeCaches, decodeCaches, List.map_cons, traverseOpt] at ih ⊢
    rw [ih]

/-! ## Claim theorems -/

/-- C5: for every raw body in which the boundary marker
`"--- mail_boundary ---"` occurs (first occurrence at index `i`, any
position including 0), the output of `clean_email_content` is computed
solely from the characters strictly before the marker — nothing from the
marker onward survives — and whenever the cleaning pipeline leaves that
prefix empty, the fixed empty-body sentinel is returned. -/
theorem clean_body_truncates_at_boundary (content : List Char) (i : Nat)
    (h : findSub boundaryMarker content 0 = some i) :
    clean_email_content content = finishClean (content.take i) ∧
      (cleanPipeline (content.take i) = [] →
        clean_email_content content = emptyBodySentinel) := by
  have hmain : clean_email_content content = finishClean (content.take i) := by
    cases content with
    | nil =>
      rw [show findSub boundaryMarker [] 0 = none from by decide] at h
      exact absurd h (by simp)
    | cons c t =>
      unfold clean_email_content
      rw [if_neg (by simp), h]
  refine ⟨hmain, fun hr => ?_⟩
  rw [hmain]
  unfold finishClean
  rw [hr]
  rfl

/-- Witness for C5 at two concrete inputs: the marker at position 0 (the
whole body is trailer, so the empty-body sentinel comes back), and the
marker mid-string (only the cleaned prefix survives). -/
theorem clean_body_truncates_at_boundary_witness :
    clean_email_content boundaryMarker = emptyBodySentinel ∧
      clean_email_content "Hi<b>!</b> --- mail_boundary --- SECRET".toList = "Hi!".toList := by
  constructor
  · have h := clean_body_truncates_at_boundary boundaryMarker 0 (by decide)
    exact h.2 (by decide)
  · have h := clean_body_truncates_at_boundary
      "Hi<b>!</b> --- mail_boundary --- SECRET".toList 11 (by decide)
    rw [h.1]
    decide

/-- C6 (amended): the unit heuristic makes a millisecond value `v` and its
second equivalent `v / 1000` format identically for `1e12 < v ≤ 1e15`.
Beyond `1e15` the second equivalent still exceeds the `1e12` threshold and
is divided again, so the two invocations format different instants (see the
counterexample), and negative values are never divided (`timestamp > 1e12`
tests sign, not magnitude). -/
theorem timestamp_unit_heuristic_agrees (fmt : ℚ → String) (v : ℚ)
    (h1 : 10 ^ 12 < v) (h2 : v ≤ 10 ^ 15) :
    timestamp_to_local_time fmt v = timestamp_to_local_time fmt (v / 1000) := by
  unfold timestamp_to_local_time
  have hdiv : ¬ ((v / 1000 : ℚ) > 10 ^ 12) := by
    rw [not_lt]
    linarith
  rw [if_pos h1, if_neg hdiv]

theorem timestamp_unit_heuristic_agrees_witness :
    timestamp_to_local_time probeFormatter (2 * 10 ^ 13) =
      timestamp_to_local_time probeFormatter (2 * 10 ^ 13 / 1000) :=
  timestamp_unit_heuristic_agrees probeFormatter (2 * 10 ^ 13) (by norm_num) (by norm_num)

/-- C6 counterexample: `v = 2e15` has magnitude above `1e12`, yet
`format_timestamp` maps `v` to the formatted image of `2e12` seconds while
mapping `v / 1000 = 2e12` to the formatted image of `2e9` seconds (the
heuristic divides it a second time).  Under any formatter distinguishing
those two instants — the real `localtime`/`strftime` formats them as years
65387 and 2033 — the outputs differ, refuting the claim as stated. -/
theorem timestamp_unit_heuristic_counterexample :
    10 ^ 12 < |(2 * 10 ^ 15 : ℚ)| ∧
      timestamp_to_local_time probeFormatter (2 * 10 ^ 15) ≠
        timestamp_to_local_time probeFormatter (2 * 10 ^ 15 / 1000) := by
  constructor
  · norm_num
  · unfold timestamp_to_local_time probeFormatter
    rw [if_pos (show (2 * 10 ^ 15 : ℚ) > 10 ^ 12 by norm_num),
      if_pos (show (2 * 10 ^ 15 / 1000 : ℚ) > 10 ^ 12 by norm_num),
      if_neg (show ¬ ((2 * 10 ^ 15 / 1000 : ℚ) < 10 ^ 10) by norm_num),
      if_pos (show (2 * 10 ^ 15 / 1000 / 1000 : ℚ) < 10 ^ 10 by norm_num)]
    decide

/-- C3 (amended): loading never raises on a missing file, an unreadable
file, malformed JSON, or any decodable JSON *object* — on the first three
it initializes both mappings empty, and on an object it stores the two
top-level entries (defaulting to empty) without validation.  A decodable
non-object document, however, makes the load raise (see the
counterexample). -/
theorem load_user_data_total_on_objects :
    load_user_data .missing = .ok (.obj [], .obj []) ∧
      load_user_data .unreadable = .ok (.obj [], .obj []) ∧
      load_user_data .badJson = .ok (.obj [], .obj []) ∧
      ∀ fs : List (String × JsonVal),
        load_user_data (.decoded (.obj fs)) =
          .ok ((lookupF fs "user_email_ids").getD (.obj []),
               (lookupF fs "user_message_ids").getD (.obj [])) :=
  ⟨rfl, rfl, rfl, fun _ => rfl⟩

/-- C3 counterexample: the persisted file `[]` is decodable JSON, but
`data.get("user_email_ids", {})` raises `AttributeError` on the decoded
list, and the `except (json.JSONDecodeError, IOError)` clause does not
catch it — the load raises instead of resetting to empty. -/
theorem load_user_data_counterexample :
    load_user_data (.decoded (.arr [])) = .error () := rfl

/-- C9: writing any in-memory state with `_save_user_data` and re-reading
the resulting document with `_load_user_data` recovers both top-level
mappings exactly; and the serialized images determine the original typed
sessions and caches (the decoders invert the encoders), so every user's
session and cache survives a restart unchanged. -/
theorem save_load_round_trip (st : PluginState) :
    load_user_data (.decoded (save_user_data st)) =
        .ok (encodeSessions st.user_email_ids, encodeCaches st.user_message_ids) ∧
      decodeSessions (encodeSessions st.user_email_ids) = some st.user_email_ids ∧
      decodeCaches (encodeCaches st.user_message_ids) = some st.user_message_ids :=
  ⟨rfl, decodeSessions_encodeSessions _, decodeCaches_encodeCaches _⟩

/-! ### Helper lemmas shared by the handler claims -/

theorem detailResultBranch_notFound (mid r : JsonVal) (st : PluginState)
    (h : pyTruthy r = false) :
    detailResultBranch mid r st = ⟨[.detailNotFound mid], st, true⟩ := by
  simp [detailResultBranch, h]

theorem detailResultBranch_formatError (mid r : JsonVal) (st : PluginState)
    (h1 : pyTruthy r = true) (h2 : isObj r = false) :
    detailResultBranch mid r st = ⟨[.detailFormatError], st, true⟩ := by
  cases r <;> simp_all [detailResultBranch, pyTruthy, isObj]

theorem jgetD_eq_jget_of_truthy (m : JsonVal) (k : String) (d : JsonVal)
    (h : pyTruthy (jget m k) = true) : jgetD m k d = jget m k := by
  cases m with
  | obj fs =>
    cases hlk : lookupF fs k with
    | none => rw [jget, hlk] at h; exact absurd h (by simp [pyTruthy])
    | some v => simp [jget, jgetD, hlk]
  | null => exact absurd h (by simp [jget, pyTruthy])
  | bool b => exact absurd h (by simp [jget, pyTruthy])
  | num q => exact absurd h (by simp [jget, pyTruthy])
  | str s => exact absurd h (by simp [jget, pyTruthy])
  | arr l => exact absurd h (by simp [jget, pyTruthy])

/-- C1 (amended): on a successful generate call (HTTP 200, JSON object body,
address found), the session is overwritten with the new email_id, address
and creation time exactly when the extracted id is (Python-)truthy; when the
address is found but the id is missing, empty, or the `result` was a bare
string (id defaults to `""`), the handler still reports success but leaves
the stored session untouched. -/
theorem generate_session_overwrite (user : String) (now : ℚ) (st : PluginState)
    (fs : List (String × JsonVal)) (result : JsonVal)
    (hres : jgetD (.obj fs) "result" (.obj []) = result)
    (hemail : pyTruthy (extract_email result) = true) :
    (pyTruthy (extract_email_id result) = true →
      generate_temp_email true user (.ok (.obj fs)) now st =
        ⟨[.genSuccess (extract_email result) (extract_email_id result)],
         PluginState.mk
           (setKey st.user_email_ids user
             (MailboxSession.mk (extract_email_id result) (extract_email result) now))
           st.user_message_ids,
         true⟩ ∧
      lookupKey (setKey st.user_email_ids user
          (MailboxSession.mk (extract_email_id result) (extract_email result) now)) user =
        some (MailboxSession.mk (extract_email_id result) (extract_email result) now)) ∧
    (pyTruthy (extract_email_id result) = false →
      generate_temp_email true user (.ok (.obj fs)) now st =
        ⟨[.genSuccess (extract_email result) (extract_email_id result)], st, true⟩) := by
  constructor
  · intro hid
    refine ⟨?_, lookupKey_setKey _ _ _⟩
    simp [generate_temp_email, hres, hemail, hid]
  · intro hid
    simp [generate_temp_email, hres, hemail, hid]

theorem generate_session_overwrite_witness :
    generate_temp_email true "u"
        (.ok (.obj [("result", .obj [("email", .str "a@b.c"), ("id", .str "box1")])]))
        5 ⟨[], []⟩ =
      ⟨[.genSuccess (.str "a@b.c") (.str "box1")],
       ⟨[("u", MailboxSession.mk (.str "box1") (.str "a@b.c") 5)], []⟩, true⟩ := by
  have h := (generate_session_overwrite "u" 5 ⟨[], []⟩
      [("result", .obj [("email", .str "a@b.c"), ("id", .str "box1")])]
      (.obj [("email", .str "a@b.c"), ("id", .str "box1")]) rfl rfl).1 rfl
  rw [h.1]
  rfl

/-- C1 counterexample: the upstream reply
`{"result": "fresh@example.com"}` (a bare-string `result`) is a successful
generation — the handler yields the success reply — yet the stored session
for the user is left exactly as it was (the old mailbox), because the id
defaults to `""` and the `if email_id:` guard skips the overwrite.  This
refutes "after success the stored session is the newly generated mailbox". -/
theorem generate_session_overwrite_counterexample :
    generate_temp_email true "u1" (.ok (.obj [("result", .str "fresh@example.com")])) 99
        ⟨[("u1", MailboxSession.mk (.str "old-id") (.str "old@example.com") 1)], []⟩ =
      ⟨[.genSuccess (.str "fresh@example.com") (.str "")],
       ⟨[("u1", MailboxSession.mk (.str "old-id") (.str "old@example.com") 1)], []⟩, true⟩ ∧
    lookupKey [("u1", MailboxSession.mk (.str "old-id") (.str "old@example.com") 1)] "u1" =
      some (MailboxSession.mk (.str "old-id") (.str "old@example.com") 1) :=
  ⟨rfl, rfl⟩

/-- C2 (amended): when a list call succeeds and the extracted message list is
non-empty (all entries being objects, as real payloads are), the user's id
cache is overwritten wholesale: the new cache value is
`extract_message_ids` of the response alone — independent of, and never
merged or deduplicated against, the prior cache.  When the upstream returns
an empty list, however, the guard `if messages and len(messages) > 0` skips
the cache write, so the prior cache survives (see the counterexample). -/
theorem list_cache_overwritten_wholesale (user arg : String) (st : PluginState)
    (fs : List (String × JsonVal)) (m : JsonVal) (ms : List JsonVal)
    (hid : ¬ pyStripS arg = "")
    (hm : extract_messages (jgetD (.obj fs) "result" (.arr [])) = .arr (m :: ms))
    (hall : (m :: ms).all isObj = true) :
    get_email_messages true user ["邮箱列表", arg] (.ok (.obj fs)) st =
      ⟨[.listSuccess (.str (pyStripS arg)) (extract_message_ids (m :: ms))],
       PluginState.mk st.user_email_ids
         (setKey st.user_message_ids user (extract_message_ids (m :: ms))),
       true⟩ ∧
    lookupKey (setKey st.user_message_ids user (extract_message_ids (m :: ms))) user =
      some (extract_message_ids (m :: ms)) := by
  refine ⟨?_, lookupKey_setKey _ _ _⟩
  simp [get_email_messages, hid, hm, hall, pyTruthy]

theorem list_cache_overwritten_wholesale_witness :
    get_email_messages true "u" ["邮箱列表", "box1"]
        (.ok (.obj [("result", .arr [.obj [("id", .str "m1")]])]))
        ⟨[], [("u", [.str "stale1", .str "stale2"])]⟩ =
      ⟨[.listSuccess (.str (pyStripS "box1")) [.str "m1"]],
       ⟨[], [("u", [.str "m1"])]⟩, true⟩ := by
  have h := (list_cache_overwritten_wholesale "u" "box1"
      ⟨[], [("u", [.str "stale1", .str "stale2"])]⟩
      [("result", .arr [.obj [("id", .str "m1")]])]
      (.obj [("id", .str "m1")]) [] (by decide) rfl rfl).1
  rw [h]
  rfl

/-- C2 counterexample: with a prior cache `["old-msg"]` for the user, a
successful list call whose upstream `result` is the empty array yields the
no-messages reply and leaves the cache still `["old-msg"]` — the cache is
not replaced on an empty result, refuting "including being replaced when
the upstream returns an empty list". -/
theorem list_cache_overwritten_counterexample :
    get_email_messages true "u" ["邮箱列表", "box1"] (.ok (.obj [("result", .arr [])]))
        ⟨[], [("u", [.str "old-msg"])]⟩ =
      ⟨[.listNoMessages (.str (pyStripS "box1"))], ⟨[], [("u", [.str "old-msg"])]⟩, true⟩ :=
  rfl

/-- C7: a user with no stored session invoking the list command with no
explicit mailbox-id argument gets the user-input-error reply; the handler
returns with the state unchanged and without reaching the network request
(`usedNetwork = false`), whatever the would-be upstream response. -/
theorem list_no_session_no_network (user : String) (parts : List String)
    (st : PluginState) (resp : ApiResponse)
    (hargs : parts.length ≤ 1)
    (hsess : lookupKey st.user_email_ids user = none) :
    get_email_messages true user parts resp st = ⟨[.listNoMailbox], st, false⟩ := by
  have h1 : ¬ (1 < parts.length) := not_lt.mpr hargs
  simp [get_email_messages, h1, hsess]

theorem list_no_session_no_network_witness :
    get_email_messages true "u" ["邮箱列表"] .badJson ⟨[], []⟩ =
      ⟨[.listNoMailbox], ⟨[], []⟩, false⟩ :=
  list_no_session_no_network "u" ["邮箱列表"] ⟨[], []⟩ .badJson (by decide) rfl

/-- C4 (amended): in the view-message-detail handler, a present `result`
value that is not an object reaches the format-error (MalformedDetail)
reply exactly when it is Python-truthy; any falsy `result` value — absent
key, but equally a present `0`, `""`, `false`, `null`, `[]` or `{}` — takes
the not-found branch instead (`if result:` tests truthiness, not
presence).  State is unchanged in both branches. -/
theorem detail_result_branches (user arg : String) (st : PluginState)
    (fs : List (String × JsonVal)) (result : JsonVal)
    (hres : jgetD (.obj fs) "result" (.obj []) = result) :
    (pyTruthy result = true → isObj result = false →
      get_message_detail true user ["查看正文", arg] (.ok (.obj fs)) st =
        ⟨[.detailFormatError], st, true⟩) ∧
    (pyTruthy result = false →
      get_message_detail true user ["查看正文", arg] (.ok (.obj fs)) st =
        ⟨[.detailNotFound (.str (pyStripS arg))], st, true⟩) := by
  subst hres
  constructor
  · intro h1 h2
    exact detailResultBranch_formatError _ _ _ h1 h2
  · intro h
    exact detailResultBranch_notFound _ _ _ h

theorem detail_result_branches_witness :
    (get_message_detail true "u" ["查看正文", "m1"] (.ok (.obj [("result", .num 1)])) ⟨[], []⟩ =
      ⟨[.detailFormatError], ⟨[], []⟩, true⟩) ∧
    (get_message_detail true "u" ["查看正文", "m1"] (.ok (.obj [])) ⟨[], []⟩ =
      ⟨[.detailNotFound (.str (pyStripS "m1"))], ⟨[], []⟩, true⟩) :=
  ⟨(detail_result_branches "u" "m1" ⟨[], []⟩ [("result", .num 1)] (.num 1) rfl).1 rfl rfl,
   (detail_result_branches "u" "m1" ⟨[], []⟩ [] (.obj []) rfl).2 rfl⟩

/-- C4 counterexample: the 200 response `{"result": 0}` carries a present,
non-object `result`, yet the handler reports the not-found error (the reply
for a missing message), not the format error — refuting "every non-object
result value takes the MalformedDetail branch, never the NotFound branch". -/
theorem detail_result_branches_counterexample :
    lookupF [("result", JsonVal.num 0)] "result" = some (.num 0) ∧
    isObj (.num 0) = false ∧
    get_message_detail true "u" ["查看正文", "m1"] (.ok (.obj [("result", .num 0)])) ⟨[], []⟩ =
      ⟨[.detailNotFound (.str (pyStripS "m1"))], ⟨[], []⟩, true⟩ :=
  ⟨rfl, rfl, rfl⟩

/-- C8: on every failure outcome of the three upstream operations — non-200
HTTP status, 200 with malformed JSON, or well-formed JSON lacking the
expected shape (no address for generate; a falsy message list for list; a
falsy or non-object `result` for detail) — the invoking handler yields
exactly one error reply and returns the state unchanged, so the persisted
document (rewritten only after a state mutation) is untouched too. -/
theorem failure_single_reply_no_mutation (user arg : String) (now : ℚ)
    (st : PluginState) (code : Nat) (fs : List (String × JsonVal)) (d : JsonVal) :
    (generate_temp_email true user (.httpError code) now st =
      ⟨[.genNetworkFailed], st, true⟩) ∧
    (generate_temp_email true user .badJson now st = ⟨[.genBadJson], st, true⟩) ∧
    (pyTruthy (extract_email (jgetD (.obj fs) "result" (.obj []))) = false →
      generate_temp_email true user (.ok (.obj fs)) now st = ⟨[.genFailed], st, true⟩) ∧
    (isObj d = false →
      generate_temp_email true user (.ok d) now st = ⟨[.genGenericError], st, true⟩) ∧
    (¬ pyStripS arg = "" →
      get_email_messages true user ["邮箱列表", arg] (.httpError code) st =
        ⟨[.listNetworkFailed code], st, true⟩) ∧
    (¬ pyStripS arg = "" →
      get_email_messages true user ["邮箱列表", arg] .badJson st =
        ⟨[.listBadJson], st, true⟩) ∧
    (¬ pyStripS arg = "" →
      pyTruthy (extract_messages (jgetD (.obj fs) "result" (.arr []))) = false →
      get_email_messages true user ["邮箱列表", arg] (.ok (.obj fs)) st =
        ⟨[.listNoMessages (.str (pyStripS arg))], st, true⟩) ∧
    (get_message_detail true user ["查看正文", arg] (.httpError code) st =
      ⟨[.detailNetworkFailed code], st, true⟩) ∧
    (get_message_detail true user ["查看正文", arg] .badJson st =
      ⟨[.detailBadJson], st, true⟩) ∧
    (pyTruthy (jgetD (.obj fs) "result" (.obj [])) = false →
      get_message_detail true user ["查看正文", arg] (.ok (.obj fs)) st =
        ⟨[.detailNotFound (.str (pyStripS arg))], st, true⟩) ∧
    (pyTruthy (jgetD (.obj fs) "result" (.obj [])) = true →
      isObj (jgetD (.obj fs) "result" (.obj [])) = false →
      get_message_detail true user ["查看正文", arg] (.ok (.obj fs)) st =
        ⟨[.detailFormatError], st, true⟩) := by
  refine ⟨rfl, rfl, ?_, ?_, ?_, ?_, ?_, rfl, rfl, ?_, ?_⟩
  · intro h
    simp [generate_temp_email, h]
  · intro h
    cases d <;> simp_all [generate_temp_email, isObj]
  · intro h
    simp [get_email_messages, h]
  · intro h
    simp [get_email_messages, h]
  · intro h1 h2
    simp [get_email_messages, h1, h2]
  · intro h
    exact detailResultBranch_notFound _ _ _ h
  · intro h1 h2
    exact detailResultBranch_formatError _ _ _ h1 h2

theorem failure_single_reply_no_mutation_witness :
    (generate_temp_email true "u" (.ok (.obj [("result", JsonVal.null)])) 0 ⟨[], []⟩ =
      ⟨[.genFailed], ⟨[], []⟩, true⟩) ∧
    (generate_temp_email true "u" (.ok (.arr [])) 0 ⟨[], []⟩ =
      ⟨[.genGenericError], ⟨[], []⟩, true⟩) ∧
    (get_email_messages true "u" ["邮箱列表", "m"] (.httpError 500) ⟨[], []⟩ =
      ⟨[.listNetworkFailed 500], ⟨[], []⟩, true⟩) ∧
    (get_email_messages true "u" ["邮箱列表", "m"] .badJson ⟨[], []⟩ =
      ⟨[.listBadJson], ⟨[], []⟩, true⟩) ∧
    (get_email_messages true "u" ["邮箱列表", "m"] (.ok (.obj [("result", JsonVal.null)]))
        ⟨[], []⟩ =
      ⟨[.listNoMessages (.str (pyStripS "m"))], ⟨[], []⟩, true⟩) ∧
    (get_message_detail true "u" ["查看正文", "m"] (.ok (.obj [("result", JsonVal.null)]))
        ⟨[], []⟩ =
      ⟨[.detailNotFound (.str (pyStripS "m"))], ⟨[], []⟩, true⟩) ∧
    (get_message_detail true "u" ["查看正文", "m"] (.ok (.obj [("result", JsonVal.num 1)]))
        ⟨[], []⟩ =
      ⟨[.detailFormatError], ⟨[], []⟩, true⟩) := by
  have h1 := failure_single_reply_no_mutation "u" "m" 0 ⟨[], []⟩ 500
      [("result", JsonVal.null)] (.arr [])
  have h2 := failure_single_reply_no_mutation "u" "m" 0 ⟨[], []⟩ 500
      [("result", JsonVal.num 1)] (.arr [])
  exact ⟨h1.2.2.1 rfl, h1.2.2.2.1 rfl, h1.2.2.2.2.1 (by decide), h1.2.2.2.2.2.1 (by decide),
    h1.2.2.2.2.2.2.1 (by decide) rfl, h1.2.2.2.2.2.2.2.2.2.1 rfl,
    h2.2.2.2.2.2.2.2.2.2.2 rfl rfl⟩

/-- C10 (amended): every id stored in a user's MessageIdCache by a
successful list call is a Python-truthy value — entries whose `id` is
absent, empty, or otherwise falsy are silently excluded — so in particular
a cached id is never the empty string and resolving "view latest message"
from the cache head never yields an empty id.  The filter does not,
however, force ids to be strings: a truthy non-string id (e.g. a number)
is cached as-is (see the counterexample). -/
theorem cache_ids_truthy (msgs : List JsonVal) (i : JsonVal)
    (h : i ∈ extract_message_ids msgs) :
    pyTruthy i = true ∧ i ≠ JsonVal.str "" := by
  unfold extract_message_ids at h
  obtain ⟨m, hmem, hsome⟩ := List.mem_filterMap.mp h
  by_cases hc : pyTruthy (jget m "id") = true
  · rw [if_pos hc] at hsome
    obtain rfl : jgetD m "id" (.str "") = i := Option.some_injective _ hsome
    rw [jgetD_eq_jget_of_truthy _ _ _ hc]
    refine ⟨hc, fun heq => ?_⟩
    rw [heq] at hc
    exact absurd hc (by simp [pyTruthy])
  · rw [if_neg hc] at hsome
    exact absurd hsome (by simp)

theorem cache_ids_truthy_witness :
    pyTruthy (JsonVal.str "m1") = true ∧ JsonVal.str "m1" ≠ JsonVal.str "" := by
  have hmem : JsonVal.str "m1" ∈ extract_message_ids [JsonVal.obj [("id", JsonVal.str "m1")]] := by
    rw [show extract_message_ids [JsonVal.obj [("id", JsonVal.str "m1")]] =
      [JsonVal.str "m1"] from rfl]
    exact List.mem_singleton.mpr rfl
  exact cache_ids_truthy _ _ hmem

/-- C10 counterexample: a message whose `id` field is the (truthy) number
`7` passes the `if msg.get("id")` filter, so the cache stores the number
`7` — not a string — refuting "every id stored ... is a non-empty
string". -/
theorem cache_ids_truthy_counterexample :
    extract_message_ids [JsonVal.obj [("id", JsonVal.num 7)]] = [JsonVal.num 7] ∧
      isStr (JsonVal.num 7) = false :=
  ⟨rfl, rfl⟩
